import Mathlib

/-!
Shallow embedding of the request-validation and dispatch core of the
qrbarcode microservice (src/main.py).

Strings are modelled as Lean `String` (a list of Unicode scalar values), so
`String.length` counts code points exactly as Python's `len` does on `str`,
and `Char.toNat` is Python's `ord`.  The Flask/HTTP plumbing, logging and the
actual image-encoding libraries are external collaborators: the two encoder
backends are passed to the handler as parameters returning `Except` (success
gives PNG bytes, failure carries the exception message `str(e)`).
-/

/-- Embedding of the `Config` dataclass (only the fields the validation and
dispatch core reads; environment-dependent fields are out of scope).
Python's `ALLOWED_TYPES` is the set literal `{'qrcode', 'barcode'}`; it is
modelled as a duplicate-free list.  Iteration order of a Python `str` set is
not specified, so the order used when joining the allowed types into the
invalid-type message is fixed here to `qrcode, barcode`. -/
structure Config where
  MAX_CONTENT_LENGTH : Nat := 1000
  BARCODE_MAX_LENGTH : Nat := 64
  ALLOWED_TYPES : List String := ["qrcode", "barcode"]
  QR_BORDER_SIZE : Nat := 1
  QR_BOX_SIZE : Nat := 10

/-- The module-level `config = Config()` instance. -/
def config : Config := {}

/-- Embedding of `validate_input(content, generate_type)` from src/main.py
(lines 124-154).  Python's `if not content` is the emptiness test on a string;
`len(content)` counts code points; `ord(char)` is `Char.toNat`; the
`all(0 <= ord(char) < 128 for char in content)` generator is `List.all` over
the string's characters. -/
def validate_input (content : String) (generate_type : String) : Bool × String :=
  if content = "" then
    (false, "Missing \x27content\x27 parameter")
  else if generate_type ∉ config.ALLOWED_TYPES then
    (false, "Invalid type. Must be one of: " ++ String.intercalate ", " config.ALLOWED_TYPES)
  else if generate_type = "barcode" then
    if content.length > config.BARCODE_MAX_LENGTH then
      (false, "Barcode content exceeds maximum length of " ++
        toString config.BARCODE_MAX_LENGTH ++ " characters")
    else if ¬ (content.data.all fun ch => decide (0 ≤ ch.toNat ∧ ch.toNat < 128)) then
      (false, "Barcode content must contain only ASCII characters")
    else
      (true, "")
  else
    if content.length > config.MAX_CONTENT_LENGTH then
      (false, "Content exceeds maximum length of " ++
        toString config.MAX_CONTENT_LENGTH ++ " characters")
    else
      (true, "")

/-- Characters Python's `str.strip()` removes: exactly those `ch` with
`ch.isspace()` true (CPython's Unicode whitespace set). -/
def py_isspace (ch : Char) : Bool :=
  ch.toNat ∈ [9, 10, 11, 12, 13, 28, 29, 30, 31, 32, 133, 160, 5760,
    8192, 8193, 8194, 8195, 8196, 8197, 8198, 8199, 8200, 8201, 8202,
    8232, 8233, 8239, 8287, 12288]

/-- Embedding of Python's `str.strip()`: drop leading and trailing whitespace
characters. -/
def py_strip (s : String) : String :=
  String.mk (((s.data.dropWhile py_isspace).reverse.dropWhile py_isspace).reverse)

/-- ASCII case folding of one character, as Python's `str.lower()` acts on the
ASCII range (the service's recognized type names are ASCII; full Unicode case
mapping is out of scope of the claims). -/
def lower_char (ch : Char) : Char :=
  if 65 ≤ ch.toNat ∧ ch.toNat ≤ 90 then Char.ofNat (ch.toNat + 32) else ch

/-- Embedding of Python's `str.lower()` on the type parameter. -/
def py_lower (s : String) : String :=
  String.mk (s.data.map lower_char)

/-- Body of an HTTP response produced by the handler: either a plain-text
message or PNG image bytes. -/
inductive RespBody where
  | text (s : String)
  | image (png : List Nat)
deriving DecidableEq

/-- The query parameters of a `/generate` request: `request.args.get` returns
`none` when a parameter is absent. -/
structure RequestArgs where
  content : Option String
  type_param : Option String

/-- Embedding of the `generate_code` handler (src/main.py lines 286-332),
parametrized by the two external encoder backends.  `qr_encode` stands for the
qrcode-library pipeline and `barcode_encode` for the Code128/ImageWriter
pipeline; each returns the PNG bytes it wrote into the buffer, or the message
`str(e)` of the exception it raised.  Headers, logging and the outer
catch-all `except` (which no modelled step can reach) are omitted. -/
def generate_code (qr_encode : String → Except String (List Nat))
    (barcode_encode : String → Except String (List Nat))
    (args : RequestArgs) : RespBody × Nat :=
  let content := py_strip (args.content.getD "")
  let generate_type := py_lower (args.type_param.getD "qrcode")
  let v := validate_input content generate_type
  if v.1 = false then
    (RespBody.text v.2, 400)
  else if generate_type = "barcode" then
    match barcode_encode content with
    | Except.ok png => (RespBody.image png, 200)
    | Except.error e => (RespBody.text ("Barcode generation error: " ++ e), 500)
  else
    match qr_encode content with
    | Except.ok png => (RespBody.image png, 200)
    | Except.error e => (RespBody.text ("QR code generation error: " ++ e), 500)

/-- Transcription of the spec's rule list for the Validator (spec §4.1),
stated with the spec's own phrasing: checks applied in this order, the first
failing check determining the reason; lengths measured in code points; rule 3b
fires when any character's code point lies outside the interval from 0
(inclusive) to 128 (exclusive). -/
def validate_rules_spec (content : String) (kind : String) : Bool × String :=
  if content.length = 0 then
    (false, "Missing \x27content\x27 parameter")
  else if kind ∉ (["qrcode", "barcode"] : List String) then
    (false, "Invalid type. Must be one of: qrcode, barcode")
  else if kind = "barcode" then
    if content.length > 64 then
      (false, "Barcode content exceeds maximum length of 64 characters")
    else if content.data.any fun ch => decide (128 ≤ ch.toNat) then
      (false, "Barcode content must contain only ASCII characters")
    else
      (true, "")
  else
    if content.length > 1000 then
      (false, "Content exceeds maximum length of 1000 characters")
    else
      (true, "")

/-- The allowed-types set of the default configuration. -/
lemma config_ALLOWED_TYPES : config.ALLOWED_TYPES = ["qrcode", "barcode"] := rfl

/-- The barcode length cap of the default configuration. -/
lemma config_BARCODE_MAX_LENGTH : config.BARCODE_MAX_LENGTH = 64 := rfl

/-- The QR length cap of the default configuration. -/
lemma config_MAX_CONTENT_LENGTH : config.MAX_CONTENT_LENGTH = 1000 := rfl

/-- A natural number below the surrogate range is a valid Unicode scalar
value, and `Char.ofNat` preserves it. -/
lemma char_toNat_ofNat_of_lt {n : Nat} (h : n < 55296) : (Char.ofNat n).toNat = n := by
  have hv : n.isValidChar := Or.inl h
  simp only [Char.ofNat, dif_pos hv, Char.ofNatAux, Char.toNat, UInt32.toNat,
    BitVec.toNat_ofNatLt]

/-- A string has length zero exactly when it is the empty string. -/
lemma string_length_eq_zero {s : String} : s.length = 0 ↔ s = "" := by
  constructor
  · intro h
    exact String.ext (List.length_eq_zero.mp h)
  · intro h
    subst h
    rfl

/-- Failing Python's `all(0 <= ord(char) < 128 ...)` test is the same as some
character having code point at least 128. -/
lemma not_all_ascii_iff (l : List Char) :
    (¬ (l.all fun ch => decide (0 ≤ ch.toNat ∧ ch.toNat < 128)) = true) ↔
    ((l.any fun ch => decide (128 ≤ ch.toNat)) = true) := by
  simp only [List.all_eq_true, List.any_eq_true, decide_eq_true_eq, not_forall]
  constructor
  · rintro ⟨ch, hch, hnot⟩
    exact ⟨ch, hch, by omega⟩
  · rintro ⟨ch, hch, hge⟩
    exact ⟨ch, hch, by omega⟩

/-- ASCII case folding is idempotent. -/
lemma lower_char_idem (ch : Char) : lower_char (lower_char ch) = lower_char ch := by
  unfold lower_char
  by_cases h : 65 ≤ ch.toNat ∧ ch.toNat ≤ 90
  · rw [if_pos h]
    have ht : (Char.ofNat (ch.toNat + 32)).toNat = ch.toNat + 32 :=
      char_toNat_ofNat_of_lt (by omega)
    rw [if_neg (by rw [ht]; omega)]
  · rw [if_neg h, if_neg h]

/-- Lowering a string twice is the same as lowering it once. -/
lemma py_lower_idem (s : String) : py_lower (py_lower s) = py_lower s := by
  unfold py_lower
  apply congrArg String.mk
  show (s.data.map lower_char).map lower_char = s.data.map lower_char
  rw [List.map_map]
  simp only [Function.comp_def, lower_char_idem]

example : validate_input "Hello World" "qrcode" = (true, "") := by decide
example : validate_input "ABC123" "barcode" = (true, "") := by decide
example : validate_input "" "qrcode" =
    (false, "Missing \x27content\x27 parameter") := by decide
example : validate_input "test" "invalid_type" =
    (false, "Invalid type. Must be one of: qrcode, barcode") := by decide
example : py_strip "   " = "" := by decide
example : py_lower "QRCODE" = "qrcode" := by decide

/-- C1: for every pair of strings (content, kind), `validate_input` applies
exactly the spec's checks in the spec's order — empty content, then
unrecognized type, then for barcode the 64-code-point limit followed by the
ASCII check, for qrcode the 1000-code-point limit — the first failing check
determining the returned reason, and returns valid with empty reason
otherwise; lengths are counted in Unicode code points. -/
theorem validate_input_refines_spec_rules :
    ∀ content kind : String, validate_input content kind = validate_rules_spec content kind := by
  intro content kind
  unfold validate_input validate_rules_spec
  simp only [config_ALLOWED_TYPES, config_BARCODE_MAX_LENGTH, config_MAX_CONTENT_LENGTH]
  by_cases h1 : content = ""
  · rw [if_pos h1, if_pos (string_length_eq_zero.mpr h1)]
  · rw [if_neg h1, if_neg (fun hl => h1 (string_length_eq_zero.mp hl))]
    by_cases h2 : kind ∈ (["qrcode", "barcode"] : List String)
    · rw [if_neg (not_not_intro h2), if_neg (not_not_intro h2)]
      by_cases h3 : kind = "barcode"
      · rw [if_pos h3, if_pos h3]
        by_cases h4 : content.length > 64
        · rw [if_pos h4, if_pos h4]
          rfl
        · rw [if_neg h4, if_neg h4]
          by_cases h5 : (content.data.any fun ch => decide (128 ≤ ch.toNat)) = true
          · rw [if_pos ((not_all_ascii_iff content.data).mpr h5), if_pos h5]
          · rw [if_neg (fun hna => h5 ((not_all_ascii_iff content.data).mp hna)),
              if_neg h5]
      · rw [if_neg h3, if_neg h3]
        by_cases h6 : content.length > 1000
        · rw [if_pos h6, if_pos h6]
          rfl
        · rw [if_neg h6, if_neg h6]
    · rw [if_pos h2, if_pos h2]
      rfl

/-- C4: for every kind string, recognized or not, `validate_input` on empty
content returns invalid with the missing-content reason — the empty-content
check runs before the type check and every other check. -/
theorem validate_input_empty_content_missing :
    ∀ kind : String,
      validate_input "" kind = (false, "Missing \x27content\x27 parameter") :=
  fun _ => rfl

/-- C6: for every pair of strings (content, kind), the result of
`validate_input` has an empty reason string exactly when its valid flag is
true. -/
theorem validate_input_reason_empty_iff_valid :
    ∀ content kind : String,
      ((validate_input content kind).2 = "" ↔ (validate_input content kind).1 = true) := by
  intro content kind
  unfold validate_input
  split_ifs <;> decide

/-- C3 counterexample: a 65-code-point barcode payload ending in a non-ASCII
character (code point 233) is rejected with the 64-character length reason,
not the ASCII reason — the length check runs first, so the claim's
"regardless of the length" fails for strings longer than 64. -/
theorem validate_barcode_nonascii_counterexample :
    (∃ ch ∈ (String.mk (List.replicate 64 'a' ++ [Char.ofNat 233])).data, 128 ≤ ch.toNat) ∧
    validate_input (String.mk (List.replicate 64 'a' ++ [Char.ofNat 233])) "barcode" =
      (false, "Barcode content exceeds maximum length of 64 characters") ∧
    ("Barcode content exceeds maximum length of 64 characters" : String) ≠
      "Barcode content must contain only ASCII characters" :=
  ⟨⟨Char.ofNat 233, by decide, by decide⟩, by decide, by decide⟩

/-- C3 (amended): for every string of length at most 64 code points containing
at least one character with code point 128 or greater, `validate_input` with
kind barcode returns invalid with the ASCII reason. -/
theorem validate_barcode_nonascii_ascii_reason (s : String)
    (hlen : s.length ≤ 64) (hna : ∃ ch ∈ s.data, 128 ≤ ch.toNat) :
    validate_input s "barcode" =
      (false, "Barcode content must contain only ASCII characters") := by
  obtain ⟨ch, hch, hge⟩ := hna
  have hne : s ≠ "" := by
    intro h
    subst h
    exact List.not_mem_nil ch hch
  unfold validate_input
  simp only [config_ALLOWED_TYPES, config_BARCODE_MAX_LENGTH]
  rw [if_neg hne,
    if_neg (not_not_intro (show ("barcode" : String) ∈ ["qrcode", "barcode"] by decide)),
    if_pos trivial,
    if_neg (show ¬ s.length > 64 by omega)]
  have hany : (s.data.any fun c => decide (128 ≤ c.toNat)) = true := by
    simp only [List.any_eq_true, decide_eq_true_eq]
    exact ⟨ch, hch, hge⟩
  rw [if_pos ((not_all_ascii_iff s.data).mpr hany)]

/-- C3 witness: the one-character string with code point 233 is rejected with
the ASCII reason. -/
theorem validate_barcode_nonascii_ascii_reason_witness :
    validate_input (String.mk [Char.ofNat 233]) "barcode" =
      (false, "Barcode content must contain only ASCII characters") :=
  validate_barcode_nonascii_ascii_reason (String.mk [Char.ofNat 233]) (by decide)
    ⟨Char.ofNat 233, by decide, by decide⟩

/-- C5 counterexample: on empty content the unrecognized-kind call returns the
missing-content reason, not the invalid-type reason, so the claim fails at
s = "". -/
theorem validate_unknown_kind_counterexample :
    validate_input "" "unknownkind" = (false, "Missing \x27content\x27 parameter") ∧
    ((false, "Missing \x27content\x27 parameter") : Bool × String) ≠
      (false, "Invalid type. Must be one of: " ++
        String.intercalate ", " config.ALLOWED_TYPES) := by
  exact ⟨by decide, by decide⟩

/-- C5 (amended): for every non-empty string s, `validate_input` with the
unrecognized kind "unknownkind" returns invalid with the invalid-type reason
listing the allowed set. -/
theorem validate_unknown_kind_invalid_type (s : String) (hne : s ≠ "") :
    validate_input s "unknownkind" =
      (false, "Invalid type. Must be one of: " ++
        String.intercalate ", " config.ALLOWED_TYPES) := by
  unfold validate_input
  rw [if_neg hne,
    if_pos (show ("unknownkind" : String) ∉ config.ALLOWED_TYPES by decide)]

/-- C5 witness: a one-character content with kind "unknownkind" is rejected
with the invalid-type reason. -/
theorem validate_unknown_kind_invalid_type_witness :
    validate_input "x" "unknownkind" =
      (false, "Invalid type. Must be one of: " ++
        String.intercalate ", " config.ALLOWED_TYPES) :=
  validate_unknown_kind_invalid_type "x" (by decide)

/-- C7: every non-empty all-ASCII string of at most 64 code points passes
barcode validation; every all-ASCII string of exactly 65 code points is
rejected with the length-exceeded reason, whose text mentions "64". -/
theorem validate_barcode_length_boundary :
    (∀ s : String, s ≠ "" → (∀ ch ∈ s.data, ch.toNat < 128) → s.length ≤ 64 →
      validate_input s "barcode" = (true, "")) ∧
    (∀ s : String, (∀ ch ∈ s.data, ch.toNat < 128) → s.length = 65 →
      validate_input s "barcode" =
        (false, "Barcode content exceeds maximum length of 64 characters")) ∧
    "64".data <:+: "Barcode content exceeds maximum length of 64 characters".data := by
  refine ⟨?_, ?_, by decide⟩
  · intro s hne hascii hlen
    unfold validate_input
    simp only [config_ALLOWED_TYPES, config_BARCODE_MAX_LENGTH]
    rw [if_neg hne,
      if_neg (not_not_intro (show ("barcode" : String) ∈ ["qrcode", "barcode"] by decide)),
      if_pos trivial,
      if_neg (show ¬ s.length > 64 by omega)]
    have hall : (s.data.all fun ch => decide (0 ≤ ch.toNat ∧ ch.toNat < 128)) = true := by
      simp only [List.all_eq_true, decide_eq_true_eq]
      intro ch hch
      exact ⟨Nat.zero_le _, hascii ch hch⟩
    rw [if_neg (not_not_intro hall)]
  · intro s hascii hlen
    have hne : s ≠ "" := by
      intro h
      rw [h] at hlen
      exact absurd hlen (by decide)
    unfold validate_input
    simp only [config_ALLOWED_TYPES, config_BARCODE_MAX_LENGTH]
    rw [if_neg hne,
      if_neg (not_not_intro (show ("barcode" : String) ∈ ["qrcode", "barcode"] by decide)),
      if_pos trivial,
      if_pos (show s.length > 64 by omega)]
    rfl

/-- C7 witness: "ABC123" passes barcode validation and 65 copies of the letter
x are rejected with the 64-character reason. -/
theorem validate_barcode_length_boundary_witness :
    validate_input "ABC123" "barcode" = (true, "") ∧
    validate_input (String.mk (List.replicate 65 'x')) "barcode" =
      (false, "Barcode content exceeds maximum length of 64 characters") :=
  ⟨validate_barcode_length_boundary.1 "ABC123" (by decide) (by decide) (by decide),
   validate_barcode_length_boundary.2.1 (String.mk (List.replicate 65 'x'))
     (by decide) (by decide)⟩

/-- C8: every non-empty string of at most 1000 code points — non-ASCII
characters included — passes qrcode validation; every string of exactly 1001
code points is rejected with the 1000-character-limit reason. -/
theorem validate_qrcode_length_boundary :
    (∀ s : String, s ≠ "" → s.length ≤ 1000 →
      validate_input s "qrcode" = (true, "")) ∧
    (∀ s : String, s.length = 1001 →
      validate_input s "qrcode" =
        (false, "Content exceeds maximum length of 1000 characters")) := by
  constructor
  · intro s hne hlen
    unfold validate_input
    simp only [config_ALLOWED_TYPES, config_MAX_CONTENT_LENGTH]
    rw [if_neg hne,
      if_neg (not_not_intro (show ("qrcode" : String) ∈ ["qrcode", "barcode"] by decide)),
      if_neg (show ¬ ("qrcode" : String) = "barcode" by decide),
      if_neg (show ¬ s.length > 1000 by omega)]
  · intro s hlen
    have hne : s ≠ "" := by
      intro h
      rw [h] at hlen
      exact absurd hlen (by decide)
    unfold validate_input
    simp only [config_ALLOWED_TYPES, config_MAX_CONTENT_LENGTH]
    rw [if_neg hne,
      if_neg (not_not_intro (show ("qrcode" : String) ∈ ["qrcode", "barcode"] by decide)),
      if_neg (show ¬ ("qrcode" : String) = "barcode" by decide),
      if_pos (show s.length > 1000 by omega)]
    rfl

/-- C8 witness: the Unicode string Hello世界 passes qrcode validation and 1001
copies of the letter x are rejected with the 1000-character reason. -/
theorem validate_qrcode_length_boundary_witness :
    validate_input "Hello世界" "qrcode" = (true, "") ∧
    validate_input (String.mk (List.replicate 1001 'x')) "qrcode" =
      (false, "Content exceeds maximum length of 1000 characters") :=
  ⟨validate_qrcode_length_boundary.1 "Hello世界" (by decide) (by decide),
   validate_qrcode_length_boundary.2 (String.mk (List.replicate 1001 'x'))
     (by show (List.replicate 1001 'x').length = 1001
         rw [List.length_replicate])⟩

/-- C2: when an encoder backend raises, the handler interpolates the raw
exception text (here "boom" / "qrboom") into the 500 response body instead of
returning a generic message — the error detail reaches the caller. -/
theorem generate_code_leaks_encoder_error :
    generate_code (fun _ => Except.ok []) (fun _ => Except.error "boom")
      ⟨some "ABC123", some "barcode"⟩ =
      (RespBody.text ("Barcode generation error: " ++ "boom"), 500) ∧
    generate_code (fun _ => Except.error "qrboom") (fun _ => Except.ok [])
      ⟨some "Hello", none⟩ =
      (RespBody.text ("QR code generation error: " ++ "qrboom"), 500) :=
  ⟨rfl, rfl⟩

/-- C9: the type parameter is lower-cased before use, so any request with an
explicit type behaves exactly like the same request with the lower-cased
type, and an absent type parameter behaves exactly like type "qrcode". -/
theorem generate_code_type_case_insensitive_default
    (qr_encode barcode_encode : String → Except String (List Nat))
    (content t : String) :
    generate_code qr_encode barcode_encode ⟨some content, some t⟩ =
      generate_code qr_encode barcode_encode ⟨some content, some (py_lower t)⟩ ∧
    generate_code qr_encode barcode_encode ⟨some content, none⟩ =
      generate_code qr_encode barcode_encode ⟨some content, some "qrcode"⟩ := by
  constructor
  · simp only [generate_code, Option.getD_some, py_lower_idem]
  · rfl

/-- C10 counterexample: the whitespace-only string of 1001 spaces is rejected
by `validate_input` under kind qrcode (with the 1000-character reason), so the
claim's "for every whitespace-only string" fails without a length bound. -/
theorem validate_whitespace_only_counterexample :
    ((String.mk (List.replicate 1001 ' ')).data.all py_isspace) = true ∧
    validate_input (String.mk (List.replicate 1001 ' ')) "qrcode" =
      (false, "Content exceeds maximum length of 1000 characters") ∧
    validate_input (String.mk (List.replicate 1001 ' ')) "qrcode" ≠ (true, "") := by
  have hl : (String.mk (List.replicate 1001 ' ')).length = 1001 := by
    show (List.replicate 1001 ' ').length = 1001
    rw [List.length_replicate]
  have hne : String.mk (List.replicate 1001 ' ') ≠ "" := by
    intro h
    rw [h] at hl
    exact absurd hl (by decide)
  have h2 : validate_input (String.mk (List.replicate 1001 ' ')) "qrcode" =
      (false, "Content exceeds maximum length of 1000 characters") := by
    unfold validate_input
    simp only [config_ALLOWED_TYPES, config_MAX_CONTENT_LENGTH]
    rw [if_neg hne,
      if_neg (not_not_intro (show ("qrcode" : String) ∈ ["qrcode", "barcode"] by decide)),
      if_neg (show ¬ ("qrcode" : String) = "barcode" by decide),
      if_pos (show (String.mk (List.replicate 1001 ' ')).length > 1000 by omega)]
    rfl
  refine ⟨?_, h2, ?_⟩
  · rw [List.all_eq_true]
    intro ch hch
    rw [List.eq_of_mem_replicate hch]
    decide
  · rw [h2]
    decide

/-- C10 (amended): `validate_input` itself performs no trimming — every
non-empty whitespace-only string of at most 1000 code points passes qrcode
validation as-is — and whitespace-only requests are rejected as missing
content only because `generate_code` strips the content before validating. -/
theorem validate_no_trim_handler_strips :
    (∀ s : String, s ≠ "" → s.length ≤ 1000 → (∀ ch ∈ s.data, py_isspace ch = true) →
      validate_input s "qrcode" = (true, "")) ∧
    (∀ qr_encode barcode_encode : String → Except String (List Nat),
      generate_code qr_encode barcode_encode ⟨some "   ", some "qrcode"⟩ =
        (RespBody.text "Missing \x27content\x27 parameter", 400)) := by
  constructor
  · intro s hne hlen hws
    unfold validate_input
    simp only [config_ALLOWED_TYPES, config_MAX_CONTENT_LENGTH]
    rw [if_neg hne,
      if_neg (not_not_intro (show ("qrcode" : String) ∈ ["qrcode", "barcode"] by decide)),
      if_neg (show ¬ ("qrcode" : String) = "barcode" by decide),
      if_neg (show ¬ s.length > 1000 by omega)]
  · intro qe be
    rfl

/-- C10 witness: the three-space string passes `validate_input` under kind
qrcode, while the handler rejects the same raw content as missing. -/
theorem validate_no_trim_handler_strips_witness :
    validate_input "   " "qrcode" = (true, "") ∧
    generate_code (fun _ => Except.ok []) (fun _ => Except.ok [])
      ⟨some "   ", some "qrcode"⟩ =
      (RespBody.text "Missing \x27content\x27 parameter", 400) :=
  ⟨validate_no_trim_handler_strips.1 "   " (by decide) (by decide) (by decide),
   validate_no_trim_handler_strips.2 (fun _ => Except.ok []) (fun _ => Except.ok [])⟩
